import Mathlib

/-!
Verification development for the proactive-routing controller
(`ryu_app.py`) of the NSFNET SDN repository.

The controller logic is shallowly embedded: every stateful method of the
`ProactiveRouting` application becomes a pure function from its inputs
(the application state, the topology snapshot delivered by the topology
provider, and the counter samples delivered by the switches) to its
outputs (the new state and the list of OpenFlow instructions sent to the
switches).  Machine integers are modelled by `Nat`/`Int`; Python floats
(timestamps, throughput, rates) by `ℚ`; Python dictionaries by
association lists with insertion-order-preserving overwrite; Python sets
of port numbers by `Finset Nat`; Python strings by lists of character
codes (`PyStr`), because the claims about the REST boundary depend on
the exact character-level tests performed by `parse_node`.

The external `networkx` shortest-path routine (`nx.shortest_path` with
the `weight` attribute) is not part of the repository; it enters the
embedding as a function parameter `sp : SPFun`, returning `none` where
the library would raise `NetworkXNoPath`.  Python's `round(x, 2)` on
floats is modelled by round-half-up to two decimals on `ℚ`; no claim in
this development depends on the behaviour at a tie.
-/

namespace RyuApp

/-- Routing modes: `hops` (unweighted) and `distrak` (weight = 1/Bw). -/
inductive Mode
| hops
| distrak
deriving DecidableEq

/-- Host IP address `10.0.0.i`, kept as its four octets (`ip_of` in the source). -/
def ip_of (i : Nat) : Nat × Nat × Nat × Nat := (10, 0, 0, i)

/-- Canonical unordered key for a switch pair (`undirected_key` in the source). -/
def undirected_key (a b : Nat) : Nat × Nat := if a < b then (a, b) else (b, a)

/-- `NUM_HOSTS = 14`: hosts h1..h14 at addresses 10.0.0.1..10.0.0.14. -/
def NUM_HOSTS : Nat := 14

/-- The static bandwidth table `self.link_bw` (Mbps), keyed by unordered switch pair. -/
def link_bw : List ((Nat × Nat) × Nat) :=
  [ (undirected_key 1 2, 50), (undirected_key 1 5, 30),
    (undirected_key 2 3, 20), (undirected_key 2 6, 40),
    (undirected_key 3 4, 25), (undirected_key 3 7, 35),
    (undirected_key 4 8, 45), (undirected_key 5 6, 10),
    (undirected_key 5 9, 20), (undirected_key 6 7, 50),
    (undirected_key 6 10, 8), (undirected_key 7 11, 40),
    (undirected_key 8 12, 30), (undirected_key 9 10, 40),
    (undirected_key 9 13, 35), (undirected_key 10 11, 20),
    (undirected_key 10 14, 30), (undirected_key 11 12, 45),
    (undirected_key 12 14, 25), (undirected_key 13 14, 15),
    (undirected_key 8 11, 20) ]

/-- `self.default_bw = 10`, used for links absent from the table. -/
def default_bw : Nat := 10

/-- Bandwidth lookup `self.link_bw.get(undirected_key(u, v), self.default_bw)`. -/
def bw_of (u v : Nat) : Nat := (List.lookup (undirected_key u v) link_bw).getD default_bw

/-- An OpenFlow match as built by the controller. -/
inductive OFMatch
| lldp                                  -- eth_type=0x88cc
| matchAll                              -- OFPMatch()
| ipv4Dst (ip : Nat × Nat × Nat × Nat)  -- eth_type=0x0800, ipv4_dst=ip
| arpTpa (ip : Nat × Nat × Nat × Nat)   -- eth_type=0x0806, arp_tpa=ip
deriving DecidableEq

/-- An OpenFlow action as built by the controller. -/
inductive OFAction
| outPort (p : Nat)       -- OFPActionOutput(p)
| outController           -- OFPActionOutput(OFPP_CONTROLLER)
deriving DecidableEq

/-- An instruction sent to a switch: a flow-mod add, or a delete-all flow-mod
(`OFPFC_DELETE` with wildcard match, `OFPP_ANY`, `OFPG_ANY`). -/
inductive Msg
| flowMod (dpid : Nat) (priority : Nat) (mtch : OFMatch) (acts : List OFAction)
| flowDeleteAll (dpid : Nat)
deriving DecidableEq

/-- A weighted undirected edge of the `networkx` graph, with its `bw` and
`weight` attributes. -/
structure Edge where
  u : Nat
  v : Nat
  bw : Nat
  weight : ℚ
deriving DecidableEq

/-- The `networkx` graph `self.G`: node list (insertion order) plus edge list. -/
structure Graph where
  nodes : List Nat
  edges : List Edge
deriving DecidableEq

/-- `G.add_node`: adds the node unless already present. -/
def addNode (g : Graph) (n : Nat) : Graph :=
  if n ∈ g.nodes then g else { g with nodes := g.nodes ++ [n] }

/-- Replace/insert the undirected edge `u -- v` in an edge list with the given
attributes (`networkx` add_edge semantics on the attribute dictionary). -/
def setEdge (es : List Edge) (u v bw : Nat) (w : ℚ) : List Edge :=
  if es.any (fun e => (e.u == u && e.v == v) || (e.u == v && e.v == u)) then
    es.map (fun e =>
      if (e.u == u && e.v == v) || (e.u == v && e.v == u) then
        { e with bw := bw, weight := w }
      else e)
  else es ++ [{ u := u, v := v, bw := bw, weight := w }]

/-- `G.add_edge(u, v, bw=bw, weight=w)`: adds both endpoints, then the edge. -/
def addEdge (g : Graph) (u v bw : Nat) (w : ℚ) : Graph :=
  let g1 := addNode (addNode g u) v
  { g1 with edges := setEdge g1.edges u v bw w }

/-- Python dictionary assignment `m[k] = x` on an association list: overwrite in
place when the key exists, append otherwise (insertion order preserved). -/
def dictSet {α β : Type} [BEq α] (m : List (α × β)) (k : α) (x : β) : List (α × β) :=
  if m.any (fun p => p.1 == k) then m.map (fun p => if p.1 == k then (k, x) else p)
  else m ++ [(k, x)]

/-- `defaultdict(set)` read: the set stored at `k`, defaulting to the empty set. -/
def dget (m : List (Nat × Finset Nat)) (k : Nat) : Finset Nat :=
  (List.lookup k m).getD ∅

/-- `self.sw_link_ports[d].add(p)` on the `defaultdict(set)`. -/
def portsAdd (m : List (Nat × Finset Nat)) (d p : Nat) : List (Nat × Finset Nat) :=
  dictSet m d (insert p (dget m d))

/-- One endpoint of a topology-provider link (dpid plus egress port). -/
structure LinkEnd where
  dpid : Nat
  port_no : Nat
deriving DecidableEq

/-- A directed link reported by `topo_api.get_all_link`. -/
structure TopoLink where
  src : LinkEnd
  dst : LinkEnd
deriving DecidableEq

/-- The topology snapshot fetched at rebuild time (`get_all_switch` dpids and
`get_all_link` links). -/
structure Topo where
  switches : List Nat
  links : List TopoLink
deriving DecidableEq

/-- The mutable controller state of `ProactiveRouting` that the routing logic
reads and writes: mode, graph, directional port map `adj`, connected
datapaths, per-switch port sets and deduced host ports.  (The statistics
dictionaries are modelled separately as inputs of `get_link_stats`.) -/
structure AppState where
  mode : Mode
  G : Graph
  adj : List ((Nat × Nat) × Nat)
  datapaths : List Nat
  sw_all_ports : List (Nat × Finset Nat)
  sw_link_ports : List (Nat × Finset Nat)
  host_port : List (Nat × Nat)
deriving DecidableEq

/-- The three structures written by `_build_graph`: the fresh graph, the
directional port map and the per-switch link-port sets. -/
structure BuildOut where
  G : Graph
  adj : List ((Nat × Nat) × Nat)
  linkPorts : List (Nat × Finset Nat)
deriving DecidableEq

/-- One iteration of the switch loop of `_build_graph`. -/
def buildStepSwitch (b : BuildOut) (s : Nat) : BuildOut :=
  { b with G := addNode b.G s }

/-- One iteration of the link loop of `_build_graph`: record both directional
ports, mark both link-port sets, and add the weighted edge (weight 1/bw in
distrak mode, 1 otherwise). -/
def buildStepLink (mode : Mode) (b : BuildOut) (lk : TopoLink) : BuildOut :=
  let u := lk.src.dpid
  let v := lk.dst.dpid
  let bw := bw_of u v
  let w : ℚ := if mode = Mode.distrak then 1 / (bw : ℚ) else 1
  { G := addEdge b.G u v bw w,
    adj := dictSet (dictSet b.adj (u, v) lk.src.port_no) (v, u) lk.dst.port_no,
    linkPorts := portsAdd (portsAdd b.linkPorts u lk.src.port_no) v lk.dst.port_no }

/-- Body of `_build_graph`: start from cleared structures, add one node per
switch, then process every link. -/
def buildArtifacts (mode : Mode) (topo : Topo) : BuildOut :=
  topo.links.foldl (buildStepLink mode)
    (topo.switches.foldl buildStepSwitch
      { G := { nodes := [], edges := [] }, adj := [], linkPorts := [] })

/-- `_build_graph`: clears and repopulates `self.G`, `self.adj` and
`self.sw_link_ports` from the current snapshot; every other field is untouched. -/
def build_graph (topo : Topo) (st : AppState) : AppState :=
  let b := buildArtifacts st.mode topo
  { st with G := b.G, adj := b.adj, sw_link_ports := b.linkPorts }

/-- Minimum of a finite set of ports with a default for the (unused) empty case. -/
def finsetMin (s : Finset Nat) (d : Nat) : Nat := WithTop.untop' d s.min

/-- Host-port deduction for one switch: candidates = all ports minus link
ports; one candidate: use it (the unique element of a singleton is its
minimum); several: numerically smallest with a warning; none: port 1 with a
warning.  The boolean records whether a warning was logged. -/
def deduceHostPort (allp linkp : Finset Nat) : Nat × Bool :=
  if (allp \ linkp).card = 1 then (finsetMin (allp \ linkp) 1, false)
  else if 1 < (allp \ linkp).card then (finsetMin (allp \ linkp) 1, true)
  else (1, true)

/-- `_deduce_host_ports`: the fresh `self.host_port` map (cleared, then one
entry per graph node). -/
def deduce_host_ports (st : AppState) : List (Nat × Nat) :=
  st.G.nodes.map fun d =>
    (d, (deduceHostPort (dget st.sw_all_ports d) (dget st.sw_link_ports d)).1)

/-- `_install_base_rules`: LLDP punt to controller at priority 500 and
table-miss drop at priority 0 (also the pair installed by
`_switch_features`). -/
def install_base_rules (dpid : Nat) : List Msg :=
  [Msg.flowMod dpid 500 OFMatch.lldp [OFAction.outController],
   Msg.flowMod dpid 0 OFMatch.matchAll []]

/-- `_clear_all_flows`: for every connected datapath, delete all flows and
reinstall the two base rules. -/
def clear_all_flows (st : AppState) : List Msg :=
  st.datapaths.flatMap fun d => Msg.flowDeleteAll d :: install_base_rules d

/-- The type of the external shortest-path routine `nx.shortest_path(G, u, d,
weight=weight)`: `none` models the `NetworkXNoPath` exception. -/
abbrev SPFun := Graph → Nat → Nat → Option (List Nat)

/-- The egress port determined for switch `u` and destination switch `dst_sw`
(lines 246-260 of the source): the deduced host port at the destination
itself, otherwise the recorded directional port towards the second node of the
computed path; `none` when the pair is skipped.  The `len(path) < 2` guard of
the source is the wildcard pattern below. -/
def egressPortFor (sp : SPFun) (st : AppState) (dst_sw u : Nat) : Option Nat :=
  if u = dst_sw then some ((List.lookup dst_sw st.host_port).getD 1)
  else
    match sp st.G u dst_sw with
    | none => none
    | some (_ :: v :: _) => List.lookup (u, v) st.adj
    | some _ => none

/-- The rules `_install_tree_to_destination` emits at one switch `u`: nothing
when the pair is skipped or the datapath is unknown, otherwise the IPv4 rule
and the ARP rule, both at priority 100 with a single output action. -/
def destRulesFor (sp : SPFun) (st : AppState) (dst_sw : Nat)
    (dst_ip : Nat × Nat × Nat × Nat) (u : Nat) : List Msg :=
  match egressPortFor sp st dst_sw u with
  | none => []
  | some p =>
    if u ∈ st.datapaths then
      [Msg.flowMod u 100 (OFMatch.ipv4Dst dst_ip) [OFAction.outPort p],
       Msg.flowMod u 100 (OFMatch.arpTpa dst_ip) [OFAction.outPort p]]
    else []

/-- `_install_tree_to_destination`: the per-switch loop over `self.G.nodes`. -/
def install_tree_to_destination (sp : SPFun) (st : AppState) (dst_sw : Nat)
    (dst_ip : Nat × Nat × Nat × Nat) : List Msg :=
  st.G.nodes.flatMap (destRulesFor sp st dst_sw dst_ip)

/-- `_install_all_destinations`: for each destination j in 1..14, skip it with
a warning when s_j is not in the graph, otherwise install its tree. -/
def install_all_destinations (sp : SPFun) (st : AppState) : List Msg :=
  ((List.range NUM_HOSTS).map (· + 1)).flatMap fun j =>
    if j ∈ st.G.nodes then install_tree_to_destination sp st j (ip_of j) else []

/-- `_rebuild_graph_and_push`: rebuild the graph; abort with a warning when it
is empty; otherwise re-deduce host ports, wipe and reinstall base rules, and
install all destination trees.  Returns the new state and the instructions
sent to the switches. -/
def rebuild_graph_and_push (sp : SPFun) (topo : Topo) (st : AppState) :
    AppState × List Msg :=
  let st1 := build_graph topo st
  if st1.G.nodes = [] then (st1, [])
  else
    let st2 := { st1 with host_port := deduce_host_ports st1 }
    (st2, clear_all_flows st2 ++ install_all_destinations sp st2)

/-- `reinstall`: delegates to `_rebuild_graph_and_push`. -/
def reinstall (sp : SPFun) (topo : Topo) (st : AppState) : AppState × List Msg :=
  rebuild_graph_and_push sp topo st

/-- `set_mode` (application level): on an actual change, store the new mode and
rebuild; otherwise do nothing. -/
def set_mode (sp : SPFun) (topo : Topo) (st : AppState) (new_mode : Mode) :
    AppState × List Msg :=
  if new_mode ≠ st.mode then rebuild_graph_and_push sp topo { st with mode := new_mode }
  else (st, [])

/-- One port-counter sample as stored by `_port_stats_reply` (counters are
Python integers, the capture timestamp a Python float). -/
structure PortStat where
  rx_packets : Int
  tx_packets : Int
  rx_bytes : Int
  tx_bytes : Int
  rx_dropped : Int
  tx_dropped : Int
  rx_errors : Int
  tx_errors : Int
  timestamp : ℚ
deriving DecidableEq

/-- `prev.get(field, 0)` where `prev` may be the empty dictionary. -/
def statField (f : PortStat → Int) : Option PortStat → Int
| some s => f s
| none => 0

/-- `prev.get(timestamp, 0)` where `prev` may be the empty dictionary. -/
def statTime : Option PortStat → ℚ
| some s => s.timestamp
| none => 0

/-- Python `round(x, 2)` on the derived float metrics, idealised over `ℚ` as
round-half-up to two decimals (Python rounds the nearest binary float to
even; no claim here rests on a tie at the third decimal). -/
def round2 (q : ℚ) : ℚ := ((round (q * 100) : ℤ) : ℚ) / 100

/-- One row of the `/stats/links` report built by `get_link_stats`. -/
structure LinkStatEntry where
  src : Nat
  dst : Nat
  src_port : Nat
  dst_port : Nat
  bw_mbps : Nat
  throughput_mbps : ℚ
  utilization : ℚ
  packet_loss_rate : ℚ
  rx_packets_u : Int
  tx_packets_u : Int
  rx_dropped_u : Int
  tx_dropped_u : Int
deriving DecidableEq

/-- The keyed counter-sample store: `port_stats`/`port_stats_prev` flattened to
(dpid, port) keys; a missing key is the missing/empty inner dictionary. -/
abbrev StatsMap := List ((Nat × Nat) × PortStat)

/-- Body of the `get_link_stats` loop for one `adj` key `(u, v)` (lines
358-413 of the source): skip the non-canonical direction `u > v`, falsy
(missing or zero) ports, and links without a current sample at both
endpoints; with a positive elapsed time at the transmitting endpoint compute
throughput and loss rate, else report zeros; the report rounds every derived
metric to two decimals.  (`bytes_v_rx`/`throughput_v_to_u` of the source are
dead locals and are omitted.) -/
def linkEntryAt (adj : List ((Nat × Nat) × Nat)) (ps psp : StatsMap) (u v : Nat) :
    Option LinkStatEntry :=
  if v < u then none
  else
    match List.lookup (u, v) adj, List.lookup (v, u) adj with
    | some port_u, some port_v =>
      if port_u = 0 ∨ port_v = 0 then none
      else
        match List.lookup (u, port_u) ps, List.lookup (v, port_v) ps with
        | some stats_u, some stats_v =>
          let stats_u_prev := List.lookup (u, port_u) psp
          let stats_v_prev := List.lookup (v, port_v) psp
          let time_diff : ℚ := stats_u.timestamp - statTime stats_u_prev
          let tl : ℚ × ℚ :=
            if 0 < time_diff then
              let bytes_u_tx := stats_u.tx_bytes - statField (fun s => s.tx_bytes) stats_u_prev
              let throughput_u_to_v : ℚ := ((bytes_u_tx * 8 : ℤ) : ℚ) / (time_diff * 1000000)
              let packets_u_tx := stats_u.tx_packets - statField (fun s => s.tx_packets) stats_u_prev
              let packets_v_rx := stats_v.rx_packets - statField (fun s => s.rx_packets) stats_v_prev
              let packet_loss := max 0 (packets_u_tx - packets_v_rx)
              let loss_rate : ℚ :=
                if 0 < packets_u_tx then ((packet_loss : ℤ) : ℚ) / ((packets_u_tx : ℤ) : ℚ) * 100
                else 0
              (throughput_u_to_v, loss_rate)
            else (0, 0)
          let bw := bw_of u v
          some
            { src := u, dst := v, src_port := port_u, dst_port := port_v, bw_mbps := bw,
              throughput_mbps := round2 tl.1,
              utilization := if 0 < bw then round2 (tl.1 / (bw : ℚ) * 100) else 0,
              packet_loss_rate := round2 tl.2,
              rx_packets_u := stats_u.rx_packets, tx_packets_u := stats_u.tx_packets,
              rx_dropped_u := stats_u.rx_dropped, tx_dropped_u := stats_u.tx_dropped }
        | _, _ => none
    | _, _ => none

/-- `get_link_stats`: one report row per canonical `adj` key that passes all
the guards, in key insertion order. -/
def get_link_stats (adj : List ((Nat × Nat) × Nat)) (ps psp : StatsMap) :
    List LinkStatEntry :=
  (adj.map (fun p => p.1)).flatMap fun k => (linkEntryAt adj ps psp k.1 k.2).toList

/-! REST boundary.  Python strings are modelled as lists of character codes so
that the character-level tests of `parse_node` stay executable. -/

/-- A Python string as its list of character codes. -/
abbrev PyStr := List Nat

/-- Python `str.strip` whitespace test (space and the ASCII control spaces). -/
def isWsCode (c : Nat) : Bool := c = 9 || c = 10 || c = 11 || c = 12 || c = 13 || c = 32

/-- Python `x.strip()`. -/
def pyStrip (s : PyStr) : PyStr :=
  ((s.dropWhile isWsCode).reverse.dropWhile isWsCode).reverse

/-- Code of an ASCII decimal digit. -/
def isDigitCode (c : Nat) : Bool := 48 ≤ c && c ≤ 57

/-- Python `x.isdigit()`: non-empty and all digits. -/
def pyIsDigit (s : PyStr) : Bool := !s.isEmpty && s.all isDigitCode

/-- Python `int(x)` on an all-digit string. -/
def digitsToNat (s : PyStr) : Nat := s.foldl (fun a c => 10 * a + (c - 48)) 0

/-- The code of the full stop, used by the dotted-address tests. -/
def dotCode : Nat := 46

/-- The code of the letter s, used by the `s<id>` test. -/
def sCode : Nat := 115

/-- `parse_node` of the `/path` handler: accepts `s<id>`, a `10.0.0.X` dotted
address, or a plain integer; `none` models the `ValueError` raises (including
the `int` failure on an empty last octet). -/
def parse_node (x0 : PyStr) : Option Nat :=
  let x := pyStrip x0
  if (match x with | c :: _ => c == sCode | [] => false) && pyIsDigit (x.drop 1) then
    some (digitsToNat (x.drop 1))
  else if pyIsDigit (x.filter (fun c => !(c == dotCode)))
      && (x.filter (fun c => c == dotCode)).length = 3 then
    let parts := List.splitOn dotCode x
    if parts.length = 4 && parts.getD 0 [] == [49, 48] && parts.getD 1 [] == [48]
        && parts.getD 2 [] == [48] && pyIsDigit (parts.getD 3 []) then
      some (digitsToNat (parts.getD 3 []))
    else none
  else if pyIsDigit x then some (digitsToNat x)
  else none

/-- The character codes of the mode string `hops`. -/
def hopsStr : PyStr := [104, 111, 112, 115]

/-- The character codes of the mode string `distrak`. -/
def distrakStr : PyStr := [100, 105, 115, 116, 114, 97, 107]

/-- The `/set_mode` POST handler: a missing or invalid `mode` field is
rejected with 400 before any mutation; a valid one is forwarded to the
application's `set_mode` and answered with 200. -/
def rest_set_mode (sp : SPFun) (topo : Topo) (st : AppState) (mode? : Option PyStr) :
    Nat × AppState × List Msg :=
  if mode? = some hopsStr ∨ mode? = some distrakStr then
    let nm := if mode? = some hopsStr then Mode.hops else Mode.distrak
    let r := set_mode sp topo st nm
    (200, r.1, r.2)
  else (400, st, [])

/-- Python falsiness of a query parameter: missing or the empty string. -/
def paramTruthy : Option PyStr → Bool
| none => false
| some s => !s.isEmpty

/-- The `/path` GET handler, reduced to its status code and the (unchanged)
controller state: 400 on a missing parameter, 500 on a `parse_node`
`ValueError` (caught by the generic `except Exception` handler), 404 when an
endpoint is not in the graph or `nx.shortest_path` raises `NetworkXNoPath`,
200 otherwise (the response payload carries no state change and is elided). -/
def rest_path (sp : SPFun) (st : AppState) (src? dst? : Option PyStr) :
    Nat × AppState :=
  if !paramTruthy src? || !paramTruthy dst? then (400, st)
  else
    match parse_node (src?.getD []) with
    | none => (500, st)
    | some src =>
      match parse_node (dst?.getD []) with
      | none => (500, st)
      | some dst =>
        if src ∉ st.G.nodes ∨ dst ∉ st.G.nodes then (404, st)
        else
          match sp st.G src dst with
          | none => (404, st)
          | some _ => (200, st)

/-- The `/topology` GET handler: mode, node list and edge list with bandwidth
and weight attributes. -/
def rest_topology (st : AppState) : Mode × List Nat × List (Nat × Nat × Nat × ℚ) :=
  (st.mode, st.G.nodes, st.G.edges.map fun e => (e.u, e.v, e.bw, e.weight))

/-! Concrete fixtures used to instantiate the theorems below. -/

/-- A shortest-path oracle that finds no path anywhere. -/
def spNone : SPFun := fun _ _ _ => none

/-- A two-switch state for instantiating the route-installer theorems:
switches 1 and 2, directional ports 5 and 7, deduced host ports 9 and 4. -/
def stW1 : AppState :=
  ⟨Mode.hops, ⟨[1, 2], []⟩, [((1, 2), 5), ((2, 1), 7)], [1, 2], [], [],
    [(1, 9), (2, 4)]⟩

/-- A direct-hop shortest-path oracle for `stW1`. -/
def spW1 : SPFun := fun _ u d => if u = d then none else some [u, d]

/-- A counter sample: 1250000 tx bytes, 1000 tx packets, time 105. -/
def suW2 : PortStat := ⟨0, 1000, 0, 1250000, 0, 0, 0, 0, 105⟩

/-- The preceding sample at the same port: all counters zero, time 100. -/
def spuW2 : PortStat := ⟨0, 0, 0, 0, 0, 0, 0, 0, 100⟩

/-- The receiving endpoint's sample: 990 rx packets, time 105. -/
def svW2 : PortStat := ⟨990, 0, 0, 0, 0, 0, 0, 0, 105⟩

/-- The preceding sample at the receiving endpoint: all zero, time 100. -/
def spvW2 : PortStat := ⟨0, 0, 0, 0, 0, 0, 0, 0, 100⟩

/-- Directional port map of the single link 1 -- 2 (ports 2 and 3). -/
def adjW2 : List ((Nat × Nat) × Nat) := [((1, 2), 2), ((2, 1), 3)]

/-- Current samples for the spec's worked link-stats example. -/
def psW2 : StatsMap := [((1, 2), suW2), ((2, 3), svW2)]

/-- Previous samples for the spec's worked link-stats example. -/
def pspW2 : StatsMap := [((1, 2), spuW2), ((2, 3), spvW2)]

/-- A transmitting-endpoint sample with only 100 new tx bytes (time 105). -/
def suX2 : PortStat := ⟨0, 0, 0, 100, 0, 0, 0, 0, 105⟩

/-- Current samples for the rounding counterexample. -/
def psX2 : StatsMap := [((1, 2), suX2), ((2, 3), svW2)]

/-- A one-switch state whose only node 1 is a connected datapath with
deduced host port 4, used for the priority counterexample. -/
def stW4 : AppState := ⟨Mode.hops, ⟨[1], []⟩, [], [1], [], [], [(1, 4)]⟩

/-- An arbitrary small state for the REST input-rejection theorems. -/
def stW5 : AppState := ⟨Mode.hops, ⟨[], []⟩, [], [], [], [], []⟩

/-- An empty topology snapshot. -/
def topoW5 : Topo := ⟨[], []⟩

/-- First-poll sample at the transmitter: cumulative 125000000 tx bytes and
100 tx packets, captured at wall-clock time 1000, with no previous sample. -/
def suW6 : PortStat := ⟨0, 100, 0, 125000000, 0, 0, 0, 0, 1000⟩

/-- First-poll sample at the receiver: cumulative 40 rx packets. -/
def svW6 : PortStat := ⟨40, 0, 0, 0, 0, 0, 0, 0, 1000⟩

/-- Current samples of the first statistics computation after startup. -/
def psW6 : StatsMap := [((1, 2), suW6), ((2, 3), svW6)]

/-- A state carrying leftovers (a deduced host port for switch 3) to observe
across an aborted rebuild. -/
def stW7 : AppState := ⟨Mode.hops, ⟨[], []⟩, [], [], [], [], [(3, 9)]⟩

/-- A state with two disconnected switches 1 and 2, both connected datapaths. -/
def stW8 : AppState :=
  ⟨Mode.hops, ⟨[1, 2], []⟩, [], [1, 2], [], [], [(1, 1), (2, 1)]⟩

/-- A shortest-path oracle for `stW8`: a trivial path to itself, none between
distinct switches. -/
def spW8 : SPFun := fun _ u d => if u = d then some [u] else none

/-- A stale pre-rebuild state: graph node 5, an adjacency entry, a link-port
set and a host port, all about to be cleared by an empty rebuild. -/
def stW10 : AppState :=
  ⟨Mode.hops, ⟨[5], []⟩, [((5, 6), 1)], [5], [(5, {1, 2})], [(5, {2})], [(5, 1)]⟩

/-! Helper lemmas. -/

/-- A successful dictionary lookup means the key occurs in the key list. -/
theorem mem_keys_of_lookup {α β : Type} [BEq α] [LawfulBEq α]
    {m : List (α × β)} {k : α} {v : β} (h : List.lookup k m = some v) :
    k ∈ m.map Prod.fst := by
  induction m with
  | nil => simp [List.lookup] at h
  | cons p l ih =>
    obtain ⟨a, b⟩ := p
    by_cases hka : k = a
    · subst hka
      simp
    · have hb : (k == a) = false := beq_eq_false_iff_ne.mpr hka
      rw [List.lookup, hb] at h
      simpa using Or.inr (List.mem_map.mp (ih h))

/-- Looking up a key of a graph-node keyed map built by `List.map`. -/
theorem lookup_map_pair {l : List Nat} {f : Nat → Nat} {d : Nat} (h : d ∈ l) :
    List.lookup d (l.map fun x => (x, f x)) = some (f d) := by
  induction l with
  | nil => cases h
  | cons a t ih =>
    by_cases hda : d = a
    · subst hda
      simp [List.lookup]
    · have hb : (d == a) = false := beq_eq_false_iff_ne.mpr hda
      simpa [List.lookup, hb] using ih (List.mem_of_ne_of_mem hda h)

/-- On a nonempty candidate set, `finsetMin` is the least element. -/
theorem finsetMin_eq_min' {s : Finset Nat} (hs : s.Nonempty) (d : Nat) :
    finsetMin s d = s.min' hs := by
  rw [finsetMin, ← Finset.coe_min' hs, WithTop.untop'_coe]

/-- C3: host-port deduction over candidates = (all usable ports) − (link
ports): the unique candidate when exactly one exists (no warning); port 1
with a warning when there is none; the numerically smallest candidate with a
warning when there are several; and the three concrete cases of the spec:
all-ports {1,2,3} with link-ports {2,3} gives 1, link-ports {1,2,3} gives
the fallback 1, and link-ports {3} gives the minimum 1.  The per-graph map
`deduce_host_ports` stores exactly this deduction for every node. -/
theorem c3_host_port_deduction :
    (∀ allp linkp : Finset Nat,
      ((allp \ linkp).card = 1 →
        ∀ x ∈ allp \ linkp, deduceHostPort allp linkp = (x, false)) ∧
      (allp \ linkp = ∅ → deduceHostPort allp linkp = (1, true)) ∧
      (1 < (allp \ linkp).card →
        (deduceHostPort allp linkp).1 ∈ allp \ linkp ∧
        (∀ y ∈ allp \ linkp, (deduceHostPort allp linkp).1 ≤ y) ∧
        (deduceHostPort allp linkp).2 = true)) ∧
    (∀ st : AppState, ∀ d ∈ st.G.nodes,
      List.lookup d (deduce_host_ports st) =
        some ((deduceHostPort (dget st.sw_all_ports d) (dget st.sw_link_ports d)).1)) ∧
    deduceHostPort {1, 2, 3} {2, 3} = (1, false) ∧
    deduceHostPort {1, 2, 3} {1, 2, 3} = (1, true) ∧
    deduceHostPort {1, 2, 3} {3} = (1, true) := by
  refine ⟨fun allp linkp => ⟨?_, ?_, ?_⟩, ?_, by decide, by decide, by decide⟩
  · intro h1 x hx
    obtain ⟨a, ha⟩ := Finset.card_eq_one.mp h1
    rw [ha] at hx
    obtain rfl := Finset.mem_singleton.mp hx
    rw [deduceHostPort, if_pos h1, finsetMin, ha, Finset.min_singleton,
      WithTop.untop'_coe]
  · intro h0
    rw [deduceHostPort, h0]
    simp
  · intro h2
    have hne : (allp \ linkp).Nonempty :=
      Finset.card_pos.mp (lt_trans Nat.zero_lt_one h2)
    have hmin : finsetMin (allp \ linkp) 1 = (allp \ linkp).min' hne :=
      finsetMin_eq_min' hne 1
    rw [deduceHostPort, if_neg (Nat.ne_of_gt h2), if_pos h2]
    exact ⟨hmin ▸ Finset.min'_mem _ hne, fun y hy => hmin ▸ Finset.min'_le _ y hy, rfl⟩
  · intro st d hd
    exact lookup_map_pair hd

/-- C3 witness: the ambiguous concrete case {1,2,3} minus {3} has several
candidates, and the deduction picks their minimum with a warning. -/
theorem c3_host_port_deduction_witness :
    1 < (({1, 2, 3} : Finset Nat) \ {3}).card ∧
    ((deduceHostPort {1, 2, 3} {3}).1 ∈ ({1, 2, 3} : Finset Nat) \ {3} ∧
     (∀ y ∈ ({1, 2, 3} : Finset Nat) \ {3}, (deduceHostPort {1, 2, 3} {3}).1 ≤ y) ∧
     (deduceHostPort {1, 2, 3} {3}).2 = true) :=
  ⟨by decide, (c3_host_port_deduction.1 {1, 2, 3} {3}).2.2 (by decide)⟩

/-- C7: when the rebuilt graph is empty, the rebuild-and-reinstall cycle
aborts before host-port deduction: no instruction of any kind (flow delete,
base rule or destination rule) is sent to any switch, and the host-port map
is left as it was. -/
theorem c7_empty_graph_aborts (sp : SPFun) (topo : Topo) (st : AppState)
    (h : (build_graph topo st).G.nodes = []) :
    (rebuild_graph_and_push sp topo st).2 = [] ∧
    (rebuild_graph_and_push sp topo st).1.host_port = st.host_port := by
  have hr : rebuild_graph_and_push sp topo st = (build_graph topo st, []) := by
    simp only [rebuild_graph_and_push]
    rw [if_pos h]
  rw [hr]
  exact ⟨rfl, rfl⟩

/-- C7 witness: on the empty snapshot, the rebuild from `stW7` emits nothing
and keeps the stale host port of switch 3. -/
theorem c7_empty_graph_aborts_witness :
    (build_graph topoW5 stW7).G.nodes = [] ∧
    (rebuild_graph_and_push spNone topoW5 stW7).2 = [] ∧
    (rebuild_graph_and_push spNone topoW5 stW7).1.host_port = stW7.host_port :=
  ⟨by decide, c7_empty_graph_aborts spNone topoW5 stW7 (by decide)⟩

/-- Adding a node leaves the node list nonempty. -/
theorem addNode_nodes_ne_nil (g : Graph) (n : Nat) : (addNode g n).nodes ≠ [] := by
  rw [addNode]
  split
  · exact List.ne_nil_of_mem (by assumption)
  · simp

/-- Adding an edge leaves the node list nonempty. -/
theorem addEdge_nodes_ne_nil (g : Graph) (u v bw : Nat) (w : ℚ) :
    (addEdge g u v bw w).nodes ≠ [] := by
  simp only [addEdge]
  exact addNode_nodes_ne_nil (addNode g u) v

/-- A switch step of `_build_graph` leaves the node list nonempty. -/
theorem stepSwitch_nodes_ne_nil (b : BuildOut) (s : Nat) :
    (buildStepSwitch b s).G.nodes ≠ [] := by
  simp only [buildStepSwitch]
  exact addNode_nodes_ne_nil b.G s

/-- A link step of `_build_graph` leaves the node list nonempty. -/
theorem stepLink_nodes_ne_nil (m : Mode) (b : BuildOut) (lk : TopoLink) :
    (buildStepLink m b lk).G.nodes ≠ [] := by
  simp only [buildStepLink]
  exact addEdge_nodes_ne_nil b.G lk.src.dpid lk.dst.dpid _ _

/-- The switch loop preserves node-list nonemptiness. -/
theorem foldl_stepSwitch_ne_nil :
    ∀ (ls : List Nat) (b : BuildOut), b.G.nodes ≠ [] →
      (ls.foldl buildStepSwitch b).G.nodes ≠ []
  | [], _, hb => hb
  | s :: ls, b, _ => by
    rw [List.foldl_cons]
    exact foldl_stepSwitch_ne_nil ls _ (stepSwitch_nodes_ne_nil b s)

/-- The link loop preserves node-list nonemptiness. -/
theorem foldl_stepLink_ne_nil (m : Mode) :
    ∀ (ls : List TopoLink) (b : BuildOut), b.G.nodes ≠ [] →
      (ls.foldl (buildStepLink m) b).G.nodes ≠ []
  | [], _, hb => hb
  | lk :: ls, b, _ => by
    rw [List.foldl_cons]
    exact foldl_stepLink_ne_nil m ls _ (stepLink_nodes_ne_nil m b lk)

/-- A snapshot with at least one switch never builds an empty node list. -/
theorem buildArtifacts_ne_nil_of_switches (m : Mode) (topo : Topo)
    (hs : topo.switches ≠ []) : (buildArtifacts m topo).G.nodes ≠ [] := by
  rw [buildArtifacts]
  apply foldl_stepLink_ne_nil
  cases h : topo.switches with
  | nil => exact absurd h hs
  | cons a t =>
    rw [List.foldl_cons]
    exact foldl_stepSwitch_ne_nil t _ (stepSwitch_nodes_ne_nil _ a)

/-- A snapshot with at least one link never builds an empty node list. -/
theorem buildArtifacts_ne_nil_of_links (m : Mode) (topo : Topo)
    (hl : topo.links ≠ []) : (buildArtifacts m topo).G.nodes ≠ [] := by
  rw [buildArtifacts]
  cases h : topo.links with
  | nil => exact absurd h hl
  | cons a t =>
    rw [List.foldl_cons]
    exact foldl_stepLink_ne_nil m t _ (stepLink_nodes_ne_nil m _ a)

/-- An empty rebuilt node list forces an entirely empty snapshot. -/
theorem buildArtifacts_nodes_nil {m : Mode} {topo : Topo}
    (h : (buildArtifacts m topo).G.nodes = []) :
    topo.switches = [] ∧ topo.links = [] := by
  constructor
  · by_contra hs
    exact buildArtifacts_ne_nil_of_switches m topo hs h
  · by_contra hl
    exact buildArtifacts_ne_nil_of_links m topo hl h

/-- On an entirely empty snapshot, `_build_graph` produces empty structures. -/
theorem buildArtifacts_empty (m : Mode) {topo : Topo} (hs : topo.switches = [])
    (hl : topo.links = []) :
    buildArtifacts m topo = ⟨⟨[], []⟩, [], []⟩ := by
  rw [buildArtifacts, hs, hl]
  rfl

/-- Fields of the state after a rebuild: mode, usable-port sets and datapaths
pass through; graph, port map and link-port sets come from the snapshot. -/
theorem rebuild_state_fields (sp : SPFun) (topo : Topo) (st : AppState) :
    (rebuild_graph_and_push sp topo st).1.mode = st.mode ∧
    (rebuild_graph_and_push sp topo st).1.sw_all_ports = st.sw_all_ports ∧
    (rebuild_graph_and_push sp topo st).1.datapaths = st.datapaths ∧
    (rebuild_graph_and_push sp topo st).1.G = (buildArtifacts st.mode topo).G ∧
    (rebuild_graph_and_push sp topo st).1.adj = (buildArtifacts st.mode topo).adj ∧
    (rebuild_graph_and_push sp topo st).1.sw_link_ports = (buildArtifacts st.mode topo).linkPorts := by
  simp only [rebuild_graph_and_push]
  by_cases hc : (build_graph topo st).G.nodes = []
  · rw [if_pos hc]
    exact ⟨rfl, rfl, rfl, rfl, rfl, rfl⟩
  · rw [if_neg hc]
    exact ⟨rfl, rfl, rfl, rfl, rfl, rfl⟩

/-- Rebuilding a state whose snapshot-derived fields are already current is
the identity. -/
theorem build_graph_eq_self {topo : Topo} {st : AppState}
    (hG : st.G = (buildArtifacts st.mode topo).G)
    (hA : st.adj = (buildArtifacts st.mode topo).adj)
    (hL : st.sw_link_ports = (buildArtifacts st.mode topo).linkPorts) :
    build_graph topo st = st := by
  cases st with
  | mk mo g a dp sap slp hp =>
    simp only [build_graph] at hG hA hL ⊢
    rw [← hG, ← hA, ← hL]

/-- Host-port deduction reads only the graph nodes and the two port-set maps. -/
theorem deduce_host_ports_congr {s t : AppState} (hG : s.G = t.G)
    (hA : s.sw_all_ports = t.sw_all_ports) (hL : s.sw_link_ports = t.sw_link_ports) :
    deduce_host_ports s = deduce_host_ports t := by
  simp only [deduce_host_ports, hG, hA, hL]

/-- Overwriting the host-port map with its current value is the identity. -/
theorem update_host_port_eq {s : AppState} {h : List (Nat × Nat)}
    (hh : h = s.host_port) : { s with host_port := h } = s := by
  cases s
  subst hh
  rfl

/-- The non-abort branch of a rebuild, spelled out. -/
theorem rebuild_of_ne_nil (sp : SPFun) (topo : Topo) (st : AppState)
    (hc : ¬ (build_graph topo st).G.nodes = []) :
    rebuild_graph_and_push sp topo st =
      ({ build_graph topo st with host_port := deduce_host_ports (build_graph topo st) },
       clear_all_flows { build_graph topo st with host_port := deduce_host_ports (build_graph topo st) } ++
         install_all_destinations sp
           { build_graph topo st with host_port := deduce_host_ports (build_graph topo st) }) := by
  simp only [rebuild_graph_and_push]
  rw [if_neg hc]

/-- The abort branch of a rebuild, spelled out. -/
theorem rebuild_of_nil (sp : SPFun) (topo : Topo) (st : AppState)
    (hc : (build_graph topo st).G.nodes = []) :
    rebuild_graph_and_push sp topo st = (build_graph topo st, []) := by
  simp only [rebuild_graph_and_push]
  rw [if_pos hc]

/-- C9: invoking `reinstall` a second time from the state the first invocation
produced — same snapshot, same usable-port sets, same mode — emits the same
instruction list and reproduces the same state. -/
theorem c9_reinstall_idempotent (sp : SPFun) (topo : Topo) (st : AppState) :
    (reinstall sp topo (reinstall sp topo st).1).2 = (reinstall sp topo st).2 ∧
    (reinstall sp topo (reinstall sp topo st).1).1 = (reinstall sp topo st).1 := by
  obtain ⟨hm, hs, hd, hG, hA, hL⟩ := rebuild_state_fields sp topo st
  have hb2 : build_graph topo (rebuild_graph_and_push sp topo st).1 =
      (rebuild_graph_and_push sp topo st).1 :=
    build_graph_eq_self (by rw [hm, hG]) (by rw [hm, hA]) (by rw [hm, hL])
  by_cases hc : (build_graph topo st).G.nodes = []
  · have h1 := rebuild_of_nil sp topo st hc
    have hc2 : (build_graph topo (rebuild_graph_and_push sp topo st).1).G.nodes = [] := by
      rw [hb2, h1]
      exact hc
    have h2 := rebuild_of_nil sp topo (rebuild_graph_and_push sp topo st).1 hc2
    rw [reinstall, reinstall, h2, hb2, h1]
    exact ⟨rfl, rfl⟩
  · have h1 := rebuild_of_ne_nil sp topo st hc
    have hc2 : ¬ (build_graph topo (rebuild_graph_and_push sp topo st).1).G.nodes = [] := by
      rw [hb2]
      intro hx
      apply hc
      rw [h1] at hx
      exact hx
    have h2 := rebuild_of_ne_nil sp topo (rebuild_graph_and_push sp topo st).1 hc2
    have hded : deduce_host_ports (rebuild_graph_and_push sp topo st).1 =
        (rebuild_graph_and_push sp topo st).1.host_port := by
      rw [h1]
      exact deduce_host_ports_congr rfl rfl rfl
    have hupd : { build_graph topo (rebuild_graph_and_push sp topo st).1 with
        host_port := deduce_host_ports (build_graph topo (rebuild_graph_and_push sp topo st).1) } =
        (rebuild_graph_and_push sp topo st).1 := by
      rw [hb2]
      exact update_host_port_eq hded
    rw [reinstall, reinstall, h2, hupd]
    constructor
    · rw [h1]
    · rw [h1]

/-- C10: even when the rebuild aborts on an empty graph, `_build_graph` has
already cleared the graph, the directional port map and the link-port sets;
the topology, link-statistics and path queries issued afterwards observe the
empty graph and adjacency, while no instruction was sent to any switch. -/
theorem c10_abort_clears_topology_state (sp : SPFun) (topo : Topo) (st : AppState)
    (h : (build_graph topo st).G.nodes = []) :
    (rebuild_graph_and_push sp topo st).1.G = { nodes := [], edges := [] } ∧
    (rebuild_graph_and_push sp topo st).1.adj = [] ∧
    (rebuild_graph_and_push sp topo st).1.sw_link_ports = [] ∧
    rest_topology (rebuild_graph_and_push sp topo st).1 = (st.mode, [], []) ∧
    (∀ ps psp : StatsMap, get_link_stats (rebuild_graph_and_push sp topo st).1.adj ps psp = []) ∧
    (∀ (sp2 : SPFun) (s t : PyStr) (a b : Nat), parse_node s = some a →
      parse_node t = some b → s ≠ [] → t ≠ [] →
      (rest_path sp2 (rebuild_graph_and_push sp topo st).1 (some s) (some t)).1 = 404) ∧
    (rebuild_graph_and_push sp topo st).2 = [] := by
  obtain ⟨hempty_s, hempty_l⟩ := buildArtifacts_nodes_nil h
  have hb : buildArtifacts st.mode topo = ⟨⟨[], []⟩, [], []⟩ :=
    buildArtifacts_empty st.mode hempty_s hempty_l
  obtain ⟨hm, _, _, hG, hA, hL⟩ := rebuild_state_fields sp topo st
  have hG0 : (rebuild_graph_and_push sp topo st).1.G = { nodes := [], edges := [] } := by
    rw [hG, hb]
  have hA0 : (rebuild_graph_and_push sp topo st).1.adj = [] := by
    rw [hA, hb]
  have hL0 : (rebuild_graph_and_push sp topo st).1.sw_link_ports = [] := by
    rw [hL, hb]
  refine ⟨hG0, hA0, hL0, ?_, ?_, ?_, ?_⟩
  · rw [rest_topology, hm, hG0]
    rfl
  · intro ps psp
    rw [hA0]
    rfl
  · intro sp2 s t a b hpa hpb hsne htne
    have hse : s.isEmpty = false := by
      cases hseq : s.isEmpty
      · rfl
      · exact absurd (List.isEmpty_iff.mp hseq) hsne
    have hte : t.isEmpty = false := by
      cases hteq : t.isEmpty
      · rfl
      · exact absurd (List.isEmpty_iff.mp hteq) htne
    have hnodes : (rebuild_graph_and_push sp topo st).1.G.nodes = [] := by
      rw [hG0]
    simp [rest_path, paramTruthy, hse, hte, hpa, hpb, hnodes]
  · rw [rebuild_of_nil sp topo st h]

/-- C10 witness: from the stale state `stW10`, an empty-snapshot rebuild
clears the adjacency map, makes the path query answer 404, and sends no
instruction to any switch. -/
theorem c10_abort_clears_topology_state_witness :
    (build_graph topoW5 stW10).G.nodes = [] ∧
    ((rebuild_graph_and_push spNone topoW5 stW10).1.adj = [] ∧
     (rest_path spNone (rebuild_graph_and_push spNone topoW5 stW10).1
       (some [55]) (some [50])).1 = 404 ∧
     (rebuild_graph_and_push spNone topoW5 stW10).2 = []) := by
  have h := c10_abort_clears_topology_state spNone topoW5 stW10 (by decide)
  exact ⟨by decide, h.2.1,
    h.2.2.2.2.2.1 spNone [55] [50] 7 2 (by decide) (by decide) (by decide) (by decide),
    h.2.2.2.2.2.2⟩

/-- A nonempty list is not `isEmpty`. -/
theorem isEmpty_false_of_ne_nil {α : Type} {s : List α} (h : s ≠ []) :
    s.isEmpty = false := by
  cases hseq : s.isEmpty
  · rfl
  · exact absurd (List.isEmpty_iff.mp hseq) h

/-- Host addresses are distinct for distinct switch indices. -/
theorem ip_of_injective {i j : Nat} (h : ip_of i = ip_of j) : i = j := by
  simpa [ip_of, Prod.ext_iff] using h

/-- Characterisation of the rules one switch contributes for one destination. -/
theorem mem_destRulesFor {sp : SPFun} {st : AppState} {d : Nat}
    {ip : Nat × Nat × Nat × Nat} {u : Nat} {m : Msg} :
    m ∈ destRulesFor sp st d ip u ↔
      ∃ p, egressPortFor sp st d u = some p ∧ u ∈ st.datapaths ∧
        (m = Msg.flowMod u 100 (OFMatch.ipv4Dst ip) [OFAction.outPort p] ∨
         m = Msg.flowMod u 100 (OFMatch.arpTpa ip) [OFAction.outPort p]) := by
  rw [destRulesFor]
  cases hq : egressPortFor sp st d u with
  | none => simp
  | some p =>
    by_cases hdp : u ∈ st.datapaths
    · simp [hdp]
    · simp [hdp]

/-- Characterisation of membership in one destination tree. -/
theorem mem_install_tree {sp : SPFun} {st : AppState} {d : Nat}
    {ip : Nat × Nat × Nat × Nat} {m : Msg} :
    m ∈ install_tree_to_destination sp st d ip ↔
      ∃ u ∈ st.G.nodes, m ∈ destRulesFor sp st d ip u := by
  rw [install_tree_to_destination, List.mem_flatMap]

/-- The destination loop ranges exactly over 1..14. -/
theorem mem_range_hosts {j : Nat} :
    j ∈ (List.range NUM_HOSTS).map (· + 1) ↔ 1 ≤ j ∧ j ≤ NUM_HOSTS := by
  simp only [List.mem_map, List.mem_range, NUM_HOSTS]
  constructor
  · rintro ⟨a, ha, rfl⟩
    omega
  · rintro ⟨h1, h2⟩
    exact ⟨j - 1, by omega, by omega⟩

/-- Characterisation of membership in the full proactive rule emission. -/
theorem mem_install_all {sp : SPFun} {st : AppState} {m : Msg} :
    m ∈ install_all_destinations sp st ↔
      ∃ j, 1 ≤ j ∧ j ≤ NUM_HOSTS ∧ j ∈ st.G.nodes ∧
        m ∈ install_tree_to_destination sp st j (ip_of j) := by
  rw [install_all_destinations, List.mem_flatMap]

  constructor
  · rintro ⟨j, hj, hm⟩
    obtain ⟨h1, h2⟩ := mem_range_hosts.mp hj
    by_cases hjG : j ∈ st.G.nodes
    · rw [if_pos hjG] at hm
      exact ⟨j, h1, h2, hjG, hm⟩
    · rw [if_neg hjG] at hm
      cases hm
  · rintro ⟨j, h1, h2, hjG, hm⟩
    refine ⟨j, mem_range_hosts.mpr ⟨h1, h2⟩, ?_⟩
    rw [if_pos hjG]
    exact hm

/-- Core of C1: once the egress port for (u, d) is determined, every emitted
rule matching destination d at switch u outputs to exactly that port, and
both rules are present when u is a connected datapath. -/
theorem install_egress_core (sp : SPFun) (st : AppState) {d u q : Nat}
    (hd1 : 1 ≤ d) (hd2 : d ≤ NUM_HOSTS) (hdG : d ∈ st.G.nodes) (huG : u ∈ st.G.nodes)
    (hq : egressPortFor sp st d u = some q) :
    (∀ pri acts,
      (Msg.flowMod u pri (OFMatch.ipv4Dst (ip_of d)) acts ∈ install_all_destinations sp st ∨
       Msg.flowMod u pri (OFMatch.arpTpa (ip_of d)) acts ∈ install_all_destinations sp st) →
      acts = [OFAction.outPort q]) ∧
    (u ∈ st.datapaths →
      Msg.flowMod u 100 (OFMatch.ipv4Dst (ip_of d)) [OFAction.outPort q] ∈
        install_all_destinations sp st ∧
      Msg.flowMod u 100 (OFMatch.arpTpa (ip_of d)) [OFAction.outPort q] ∈
        install_all_destinations sp st) := by
  constructor
  · rintro pri acts (hmem | hmem) <;>
    · obtain ⟨j, _, _, _, hm⟩ := mem_install_all.mp hmem
      obtain ⟨u2, _, hm2⟩ := mem_install_tree.mp hm
      obtain ⟨p, hp, _, hshape⟩ := mem_destRulesFor.mp hm2
      rcases hshape with he | he <;>
        simp only [Msg.flowMod.injEq, OFMatch.ipv4Dst.injEq, OFMatch.arpTpa.injEq,
          reduceCtorEq, and_false, false_and] at he
      all_goals
        obtain ⟨hu2, _, hdj, hacts⟩ := he
        obtain rfl := ip_of_injective hdj
        rw [← hu2] at hp
        rw [hq] at hp
        obtain rfl := Option.some.inj hp
        exact hacts
  · intro hdp
    have hip : Msg.flowMod u 100 (OFMatch.ipv4Dst (ip_of d)) [OFAction.outPort q] ∈
        destRulesFor sp st d (ip_of d) u :=
      mem_destRulesFor.mpr ⟨q, hq, hdp, Or.inl rfl⟩
    have harp : Msg.flowMod u 100 (OFMatch.arpTpa (ip_of d)) [OFAction.outPort q] ∈
        destRulesFor sp st d (ip_of d) u :=
      mem_destRulesFor.mpr ⟨q, hq, hdp, Or.inr rfl⟩
    exact ⟨mem_install_all.mpr ⟨d, hd1, hd2, hdG, mem_install_tree.mpr ⟨u, huG, hip⟩⟩,
      mem_install_all.mpr ⟨d, hd1, hd2, hdG, mem_install_tree.mpr ⟨u, huG, harp⟩⟩⟩

/-- C1: for every destination d in 1..14 present in the graph and every
switch u of the graph, the rules emitted for (u, d) use the deduced host
port of d when u = d, and the recorded directional port towards the second
node of the computed shortest path when u differs from d and both the path
and the port mapping exist. -/
theorem c1_installed_egress_ports (sp : SPFun) (st : AppState) (d u hp : Nat)
    (hd1 : 1 ≤ d) (hd2 : d ≤ NUM_HOSTS) (hdG : d ∈ st.G.nodes) (huG : u ∈ st.G.nodes)
    (hhp : List.lookup d st.host_port = some hp) :
    (u = d →
      (∀ pri acts,
        (Msg.flowMod u pri (OFMatch.ipv4Dst (ip_of d)) acts ∈ install_all_destinations sp st ∨
         Msg.flowMod u pri (OFMatch.arpTpa (ip_of d)) acts ∈ install_all_destinations sp st) →
        acts = [OFAction.outPort hp]) ∧
      (u ∈ st.datapaths →
        Msg.flowMod u 100 (OFMatch.ipv4Dst (ip_of d)) [OFAction.outPort hp] ∈
          install_all_destinations sp st ∧
        Msg.flowMod u 100 (OFMatch.arpTpa (ip_of d)) [OFAction.outPort hp] ∈
          install_all_destinations sp st)) ∧
    (∀ v rest p, u ≠ d → sp st.G u d = some (u :: v :: rest) →
      List.lookup (u, v) st.adj = some p →
      (∀ pri acts,
        (Msg.flowMod u pri (OFMatch.ipv4Dst (ip_of d)) acts ∈ install_all_destinations sp st ∨
         Msg.flowMod u pri (OFMatch.arpTpa (ip_of d)) acts ∈ install_all_destinations sp st) →
        acts = [OFAction.outPort p]) ∧
      (u ∈ st.datapaths →
        Msg.flowMod u 100 (OFMatch.ipv4Dst (ip_of d)) [OFAction.outPort p] ∈
          install_all_destinations sp st ∧
        Msg.flowMod u 100 (OFMatch.arpTpa (ip_of d)) [OFAction.outPort p] ∈
          install_all_destinations sp st)) := by
  constructor
  · intro hud
    have hq : egressPortFor sp st d u = some hp := by
      rw [egressPortFor, if_pos hud, hhp]
      rfl
    exact install_egress_core sp st hd1 hd2 hdG huG hq
  · intro v rest p hud hsp hadj
    have hq : egressPortFor sp st d u = some p := by
      rw [egressPortFor, if_neg hud, hsp]
      exact hadj
    exact install_egress_core sp st hd1 hd2 hdG huG hq

/-- C1 witness: in `stW1`, the rules towards destination 2 leave switch 1 on
the recorded directional port 5 (first hop of the path [1, 2]) and leave
switch 2 itself on its deduced host port 4. -/
theorem c1_installed_egress_ports_witness :
    List.lookup 2 stW1.host_port = some 4 ∧
    Msg.flowMod 1 100 (OFMatch.ipv4Dst (ip_of 2)) [OFAction.outPort 5] ∈
      install_all_destinations spW1 stW1 ∧
    Msg.flowMod 2 100 (OFMatch.ipv4Dst (ip_of 2)) [OFAction.outPort 4] ∈
      install_all_destinations spW1 stW1 := by
  refine ⟨by decide, ?_, ?_⟩
  · exact (((c1_installed_egress_ports spW1 stW1 2 1 4 (by decide) (by decide)
      (by decide) (by decide) (by decide)).2 2 [] 5 (by decide) (by decide)
      (by decide)).2 (by decide)).1
  · exact (((c1_installed_egress_ports spW1 stW1 2 2 4 (by decide) (by decide)
      (by decide) (by decide) (by decide)).1 (by decide)).2 (by decide)).1

/-- C4 (amended): for every (u, d) pair with a determined egress port on a
connected datapath, exactly two rules are emitted — the IPv4 rule and the ARP
rule towards the host address of d, both with the single output action to the
same port — at the fixed priority 100, which is above the priority-0
table-miss base rule but below the priority-500 discovery-redirect base
rule. -/
theorem c4_amended_two_rules_priority (sp : SPFun) (st : AppState) (d u p : Nat)
    (hq : egressPortFor sp st d u = some p) (hdp : u ∈ st.datapaths) :
    destRulesFor sp st d (ip_of d) u =
      [Msg.flowMod u 100 (OFMatch.ipv4Dst (ip_of d)) [OFAction.outPort p],
       Msg.flowMod u 100 (OFMatch.arpTpa (ip_of d)) [OFAction.outPort p]] ∧
    install_base_rules u =
      [Msg.flowMod u 500 OFMatch.lldp [OFAction.outController],
       Msg.flowMod u 0 OFMatch.matchAll []] ∧
    (0 : Nat) < 100 ∧ (100 : Nat) < 500 := by
  refine ⟨?_, rfl, by decide, by decide⟩
  simp only [destRulesFor, hq]
  rw [if_pos hdp]

/-- C4 counterexample: the destination rules are emitted at priority 100,
which is not above the priority-500 discovery-redirect base rule — refuting
the claim that the fixed priority is above both base-rule priorities. -/
theorem c4_counterexample_priority_not_above_base :
    Msg.flowMod 1 100 (OFMatch.ipv4Dst (ip_of 1)) [OFAction.outPort 4] ∈
      install_tree_to_destination spNone stW4 1 (ip_of 1) ∧
    Msg.flowMod 1 500 OFMatch.lldp [OFAction.outController] ∈ install_base_rules 1 ∧
    ¬ 500 < 100 := by decide

/-- C4 witness: at the concrete pair (1, 1) of `stW4` the egress port is the
deduced host port 4 and exactly the two rules are emitted. -/
theorem c4_amended_two_rules_priority_witness :
    egressPortFor spNone stW4 1 1 = some 4 ∧
    destRulesFor spNone stW4 1 (ip_of 1) 1 =
      [Msg.flowMod 1 100 (OFMatch.ipv4Dst (ip_of 1)) [OFAction.outPort 4],
       Msg.flowMod 1 100 (OFMatch.arpTpa (ip_of 1)) [OFAction.outPort 4]] :=
  ⟨by decide, (c4_amended_two_rules_priority spNone stW4 1 1 4 (by decide) (by decide)).1⟩

/-- C8: when no path from u to d exists, the installer emits no rule at all
for the pair (u, d), every other pair's rules are still emitted, and the
path query between the two disconnected switches answers 404 with the state
untouched. -/
theorem c8_no_path_pair_skipped (sp : SPFun) (st : AppState) (d u : Nat)
    (hd1 : 1 ≤ d) (hd2 : d ≤ NUM_HOSTS) (hdG : d ∈ st.G.nodes) (huG : u ∈ st.G.nodes)
    (hud : u ≠ d) (hnp : sp st.G u d = none) :
    destRulesFor sp st d (ip_of d) u = [] ∧
    (∀ pri acts,
      Msg.flowMod u pri (OFMatch.ipv4Dst (ip_of d)) acts ∉ install_all_destinations sp st ∧
      Msg.flowMod u pri (OFMatch.arpTpa (ip_of d)) acts ∉ install_all_destinations sp st) ∧
    (∀ u2 ∈ st.G.nodes, ∀ m ∈ destRulesFor sp st d (ip_of d) u2,
      m ∈ install_all_destinations sp st) ∧
    (∀ s t : PyStr, parse_node s = some u → parse_node t = some d →
      s ≠ [] → t ≠ [] → rest_path sp st (some s) (some t) = (404, st)) := by
  have hq : egressPortFor sp st d u = none := by
    rw [egressPortFor, if_neg hud, hnp]
  refine ⟨?_, ?_, ?_, ?_⟩
  · rw [destRulesFor, hq]
  · intro pri acts
    constructor <;>
    · intro hmem
      obtain ⟨j, _, _, _, hm⟩ := mem_install_all.mp hmem
      obtain ⟨u2, _, hm2⟩ := mem_install_tree.mp hm
      obtain ⟨p, hp, _, hshape⟩ := mem_destRulesFor.mp hm2
      rcases hshape with he | he <;>
        simp only [Msg.flowMod.injEq, OFMatch.ipv4Dst.injEq, OFMatch.arpTpa.injEq,
          reduceCtorEq, and_false, false_and] at he
      all_goals
        obtain ⟨hu2, _, hdj, _⟩ := he
        obtain rfl := ip_of_injective hdj
        rw [← hu2, hq] at hp
        cases hp
  · intro u2 hu2 m hm
    exact mem_install_all.mpr ⟨d, hd1, hd2, hdG, mem_install_tree.mpr ⟨u2, hu2, hm⟩⟩
  · intro s t hps hpt hsne htne
    have hse := isEmpty_false_of_ne_nil hsne
    have hte := isEmpty_false_of_ne_nil htne
    simp [rest_path, paramTruthy, hse, hte, hps, hpt, huG, hdG, hnp]

/-- C8 witness: in the disconnected two-switch state `stW8`, the pair (1, 2)
gets no rule and the path query from 1 to 2 answers 404. -/
theorem c8_no_path_pair_skipped_witness :
    spW8 stW8.G 1 2 = none ∧
    destRulesFor spW8 stW8 2 (ip_of 2) 1 = [] ∧
    rest_path spW8 stW8 (some [49]) (some [50]) = (404, stW8) := by
  have h := c8_no_path_pair_skipped spW8 stW8 2 1 (by decide) (by decide)
    (by decide) (by decide) (by decide) (by decide)
  exact ⟨by decide, h.1, h.2.2.2 [49] [50] (by decide) (by decide) (by decide) (by decide)⟩

/-- C5 (amended): an invalid routing mode is rejected with 400 and no state
mutation; a malformed node identifier on the path endpoint is rejected with
status 500 (the generic server-error handler catches the `ValueError`) and no
state mutation. -/
theorem c5_amended_input_rejection :
    (∀ (sp : SPFun) (topo : Topo) (st : AppState) (mode? : Option PyStr),
      mode? ≠ some hopsStr → mode? ≠ some distrakStr →
      rest_set_mode sp topo st mode? = (400, st, [])) ∧
    (∀ (sp : SPFun) (st : AppState) (s t : PyStr), s ≠ [] → t ≠ [] →
      (parse_node s = none ∨ parse_node t = none) →
      rest_path sp st (some s) (some t) = (500, st)) := by
  constructor
  · intro sp topo st mode? h1 h2
    rw [rest_set_mode, if_neg]
    rintro (h | h)
    · exact h1 h
    · exact h2 h
  · intro sp st s t hs ht hp
    have hse := isEmpty_false_of_ne_nil hs
    have hte := isEmpty_false_of_ne_nil ht
    rcases hp with hp | hp
    · simp [rest_path, paramTruthy, hse, hte, hp]
    · cases hq : parse_node s with
      | none => simp [rest_path, paramTruthy, hse, hte, hq]
      | some a => simp [rest_path, paramTruthy, hse, hte, hq, hp]

/-- C5 counterexample: the malformed node identifier abc on the path endpoint
is rejected with status 500, a server error, not a client-error (4xx)
status. -/
theorem c5_counterexample_malformed_id_not_4xx :
    (rest_path spNone stW5 (some [97, 98, 99]) (some [50])).1 = 500 ∧
    ¬ (rest_path spNone stW5 (some [97, 98, 99]) (some [50])).1 < 500 := by
  decide

/-- C5 witness: the invalid mode string x answers 400 without mutation, and
the malformed identifier a on the path endpoint answers 500 without
mutation. -/
theorem c5_amended_input_rejection_witness :
    rest_set_mode spNone topoW5 stW5 (some [120]) = (400, stW5, []) ∧
    rest_path spNone stW5 (some [97]) (some [50]) = (500, stW5) :=
  ⟨c5_amended_input_rejection.1 spNone topoW5 stW5 (some [120]) (by decide) (by decide),
   c5_amended_input_rejection.2 spNone stW5 [97] [50] (by decide) (by decide)
     (Or.inl (by decide))⟩

/-- Evaluation of one `get_link_stats` loop body when both endpoints hold a
current and a previous sample and the elapsed time at the transmitter is
positive: every reported metric is the corresponding formula rounded to two
decimals. -/
theorem linkEntryAt_of_samples (adj : List ((Nat × Nat) × Nat)) (ps psp : StatsMap)
    (u v pu pv : Nat) (su sv spu spv : PortStat)
    (hvu : ¬ v < u)
    (hpu : List.lookup (u, v) adj = some pu) (hpv : List.lookup (v, u) adj = some pv)
    (hpu0 : pu ≠ 0) (hpv0 : pv ≠ 0)
    (hsu : List.lookup (u, pu) ps = some su) (hsv : List.lookup (v, pv) ps = some sv)
    (hspu : List.lookup (u, pu) psp = some spu) (hspv : List.lookup (v, pv) psp = some spv)
    (hdt : 0 < su.timestamp - spu.timestamp) :
    linkEntryAt adj ps psp u v = some
      { src := u, dst := v, src_port := pu, dst_port := pv, bw_mbps := bw_of u v,
        throughput_mbps := round2 ((((su.tx_bytes - spu.tx_bytes) * 8 : ℤ) : ℚ) /
          ((su.timestamp - spu.timestamp) * 1000000)),
        utilization := if 0 < bw_of u v then
          round2 ((((su.tx_bytes - spu.tx_bytes) * 8 : ℤ) : ℚ) /
            ((su.timestamp - spu.timestamp) * 1000000) / ((bw_of u v : Nat) : ℚ) * 100)
          else 0,
        packet_loss_rate := round2 (if 0 < su.tx_packets - spu.tx_packets then
          ((max 0 ((su.tx_packets - spu.tx_packets) - (sv.rx_packets - spv.rx_packets)) : ℤ) : ℚ) /
            (((su.tx_packets - spu.tx_packets) : ℤ) : ℚ) * 100
          else 0),
        rx_packets_u := su.rx_packets, tx_packets_u := su.tx_packets,
        rx_dropped_u := su.rx_dropped, tx_dropped_u := su.tx_dropped } := by
  have hguard : ¬ (pu = 0 ∨ pv = 0) := not_or.mpr ⟨hpu0, hpv0⟩
  rw [linkEntryAt, if_neg hvu, hpu, hpv]
  simp only [statTime, statField]
  rw [if_neg hguard, hsu, hsv]
  simp only [hspu, hspv, statTime, statField]
  rw [if_pos hdt]

/-- Evaluation of one `get_link_stats` loop body on the first poll after
startup: both endpoints hold exactly one sample and no previous one, the
`get(..., 0)` defaults make the elapsed time the raw capture timestamp, and
the reported metrics derive from the cumulative counters of that single
sample. -/
theorem linkEntryAt_first_poll (adj : List ((Nat × Nat) × Nat)) (ps psp : StatsMap)
    (u v pu pv : Nat) (su sv : PortStat)
    (hvu : ¬ v < u)
    (hpu : List.lookup (u, v) adj = some pu) (hpv : List.lookup (v, u) adj = some pv)
    (hpu0 : pu ≠ 0) (hpv0 : pv ≠ 0)
    (hsu : List.lookup (u, pu) ps = some su) (hsv : List.lookup (v, pv) ps = some sv)
    (hspu : List.lookup (u, pu) psp = none) (hspv : List.lookup (v, pv) psp = none)
    (hdt : 0 < su.timestamp) :
    linkEntryAt adj ps psp u v = some
      { src := u, dst := v, src_port := pu, dst_port := pv, bw_mbps := bw_of u v,
        throughput_mbps := round2 (((su.tx_bytes * 8 : ℤ) : ℚ) / (su.timestamp * 1000000)),
        utilization := if 0 < bw_of u v then
          round2 (((su.tx_bytes * 8 : ℤ) : ℚ) / (su.timestamp * 1000000) /
            ((bw_of u v : Nat) : ℚ) * 100)
          else 0,
        packet_loss_rate := round2 (if 0 < su.tx_packets then
          ((max 0 (su.tx_packets - sv.rx_packets) : ℤ) : ℚ) / ((su.tx_packets : ℤ) : ℚ) * 100
          else 0),
        rx_packets_u := su.rx_packets, tx_packets_u := su.tx_packets,
        rx_dropped_u := su.rx_dropped, tx_dropped_u := su.tx_dropped } := by
  have hguard : ¬ (pu = 0 ∨ pv = 0) := not_or.mpr ⟨hpu0, hpv0⟩
  have hdt0 : 0 < su.timestamp - statTime none := by
    simpa [statTime] using hdt
  rw [linkEntryAt, if_neg hvu, hpu, hpv]
  simp only [statTime, statField]
  rw [if_neg hguard, hsu, hsv]
  simp only [hspu, hspv, statTime, statField]
  rw [if_pos (by simpa using hdt)]
  simp [sub_zero]

/-- C2 (amended): for every canonical link with current and previous samples
at both endpoints and positive elapsed time at the transmitter, the reported
row carries the stated formulas, each rounded to two decimals: throughput =
8 x delta tx_bytes / (delta t x 1e6); utilization = throughput / bandwidth x
100 (0 if the bandwidth is 0); loss = max(0, delta tx_packets - delta
rx_packets) and loss rate = loss / delta tx_packets x 100 (0 when no packet
was sent). -/
theorem c2_amended_link_stats_formulas (adj : List ((Nat × Nat) × Nat))
    (ps psp : StatsMap) (u v pu pv : Nat) (su sv spu spv : PortStat)
    (hvu : ¬ v < u)
    (hpu : List.lookup (u, v) adj = some pu) (hpv : List.lookup (v, u) adj = some pv)
    (hpu0 : pu ≠ 0) (hpv0 : pv ≠ 0)
    (hsu : List.lookup (u, pu) ps = some su) (hsv : List.lookup (v, pv) ps = some sv)
    (hspu : List.lookup (u, pu) psp = some spu) (hspv : List.lookup (v, pv) psp = some spv)
    (hdt : 0 < su.timestamp - spu.timestamp) :
    ∃ e : LinkStatEntry,
      linkEntryAt adj ps psp u v = some e ∧
      e ∈ get_link_stats adj ps psp ∧
      e.src = u ∧ e.dst = v ∧ e.src_port = pu ∧ e.dst_port = pv ∧
      e.bw_mbps = bw_of u v ∧
      e.throughput_mbps = round2 ((((su.tx_bytes - spu.tx_bytes) * 8 : ℤ) : ℚ) /
        ((su.timestamp - spu.timestamp) * 1000000)) ∧
      e.utilization = (if 0 < bw_of u v then
        round2 ((((su.tx_bytes - spu.tx_bytes) * 8 : ℤ) : ℚ) /
          ((su.timestamp - spu.timestamp) * 1000000) / ((bw_of u v : Nat) : ℚ) * 100)
        else 0) ∧
      e.packet_loss_rate = round2 (if 0 < su.tx_packets - spu.tx_packets then
        ((max 0 ((su.tx_packets - spu.tx_packets) - (sv.rx_packets - spv.rx_packets)) : ℤ) : ℚ) /
          (((su.tx_packets - spu.tx_packets) : ℤ) : ℚ) * 100
        else 0) := by
  have hE := linkEntryAt_of_samples adj ps psp u v pu pv su sv spu spv
    hvu hpu hpv hpu0 hpv0 hsu hsv hspu hspv hdt
  refine ⟨_, hE, ?_, rfl, rfl, rfl, rfl, rfl, rfl, rfl, rfl⟩
  rw [get_link_stats]
  refine List.mem_flatMap.mpr ⟨(u, v), mem_keys_of_lookup hpu, ?_⟩
  rw [hE]
  exact List.mem_singleton.mpr rfl

/-- C2 witness: the spec's worked example — 1250000 new tx bytes over 5
seconds on link 1 -- 2 of bandwidth 50, with 10 of 1000 packets lost —
reports throughput 2.0 Mbps, utilization 4.0 percent and loss rate 1.0
percent. -/
theorem c2_amended_link_stats_formulas_witness :
    ∃ e : LinkStatEntry,
      linkEntryAt adjW2 psW2 pspW2 1 2 = some e ∧
      e ∈ get_link_stats adjW2 psW2 pspW2 ∧
      e.bw_mbps = 50 ∧ e.throughput_mbps = 2 ∧ e.utilization = 4 ∧
      e.packet_loss_rate = 1 := by
  obtain ⟨e, he, hmem, _, _, _, _, hbw, ht, hu, hl⟩ :=
    c2_amended_link_stats_formulas adjW2 psW2 pspW2 1 2 2 3 suW2 svW2 spuW2 spvW2
      (by decide) rfl rfl (by decide) (by decide) rfl rfl rfl rfl
      (by norm_num [suW2, spuW2])
  have hbw50 : bw_of 1 2 = 50 := by decide
  refine ⟨e, he, hmem, by rw [hbw, hbw50], ?_, ?_, ?_⟩
  · rw [ht]
    norm_num [suW2, spuW2, round2, round_eq]
  · rw [hu, hbw50]
    norm_num [suW2, spuW2, round2, round_eq]
  · rw [hl]
    norm_num [suW2, spuW2, svW2, spvW2, round2, round_eq]

/-- C2 counterexample: with 100 new tx bytes over 5 seconds the formula gives
throughput 800/5000000 Mbps, but the reported row carries 0.0 — the report
equals the formulas only after rounding to two decimals, refuting the claim
that the derived statistics equal the stated formulas exactly. -/
theorem c2_counterexample_report_is_rounded :
    (get_link_stats adjW2 psX2 pspW2).map (fun e => e.throughput_mbps) = [0] ∧
    (((100 * 8 : ℤ) : ℚ) / (5 * 1000000)) ≠ 0 := by
  constructor
  · have h12 := linkEntryAt_of_samples adjW2 psX2 pspW2 1 2 2 3 suX2 svW2 spuW2 spvW2
      (by decide) rfl rfl (by decide) (by decide) rfl rfl rfl rfl
      (by norm_num [suX2, spuW2])
    have h21 : linkEntryAt adjW2 psX2 pspW2 2 1 = none := rfl
    simp only [adjW2] at h12 h21
    simp only [get_link_stats, adjW2, List.map_cons, List.map_nil, List.flatMap_cons,
      List.flatMap_nil]
    rw [h12, h21]
    simp only [Option.toList, List.append_nil, List.nil_append, List.singleton_append,
      List.map_cons, List.map_nil]
    norm_num [suX2, spuW2, round2, round_eq]
  · norm_num

/-- C6 (code bug): on the first statistics computation after startup — one
sample per endpoint, no previous sample — the `get(timestamp, 0)` default
makes the elapsed time equal the raw capture timestamp, which is positive, so
the reported metrics are computed from the cumulative counters of the single
sample instead of being zero: here throughput 1.0 Mbps and loss rate 60.0
percent.  No division error occurs, but the zero/undefined-metrics half of
the claim is violated by the code. -/
theorem c6_first_poll_derives_from_single_sample :
    (get_link_stats adjW2 psW6 []).map (fun e => (e.throughput_mbps, e.packet_loss_rate)) =
      [((1 : ℚ), (60 : ℚ))] ∧ ¬ ((1 : ℚ) = 0 ∧ (60 : ℚ) = 0) := by
  constructor
  · have h12 := linkEntryAt_first_poll adjW2 psW6 [] 1 2 2 3 suW6 svW6
      (by decide) rfl rfl (by decide) (by decide) rfl rfl rfl rfl
      (by norm_num [suW6])
    have h21 : linkEntryAt adjW2 psW6 [] 2 1 = none := rfl
    simp only [adjW2] at h12 h21
    simp only [get_link_stats, adjW2, List.map_cons, List.map_nil, List.flatMap_cons,
      List.flatMap_nil]
    rw [h12, h21]
    simp only [Option.toList, List.append_nil, List.nil_append, List.singleton_append,
      List.map_cons, List.map_nil]
    norm_num [suW6, svW6, round2, round_eq]
  · norm_num

end RyuApp
